import Mathlib

/-!
Shallow embedding of the authorization core of the erp-backend repository:
the token helper (src/helpers/tokens.js), the auth middleware
(middleware/auth.js, kept in src/unnamed/part_000) and the membership
lookup (Database.isUserLinkedToDatabase in src/models/database.js).

JS strings are modelled as their character lists so that every string
operation the middleware performs is structurally recursive and can be
evaluated by the kernel on concrete inputs.
-/

namespace ErpAuth

/-- A JS string, modelled as its list of characters. -/
abbrev JStr := List Char

/-- Conversion of a Lean string literal to the JS string model. -/
def js (s : String) : JStr := s.toList

/-- Decoded JWT payload / identity object as stored on res.locals.user.
JS objects are duck typed, so every field may be absent (undefined). -/
structure Payload where
  email : Option JStr
  role : Option JStr
  id : Option Nat
deriving Repr, DecidableEq

/-- Model of the jsonwebtoken library: a signed token is the payload
together with the key it was signed with (signature validity is modelled
as key equality). -/
structure SignedToken where
  payload : Payload
  sig : JStr
deriving Repr, DecidableEq

/-- Error kinds surfaced by the authorization core: UnauthorizedError
(with its optional message), a jwt verification failure, and a rethrown
data-access failure from the storage layer. -/
inductive ErrKind where
  | Unauthorized : Option JStr → ErrKind
  | InvalidSignature : ErrKind
  | DataAccess : JStr → ErrKind
deriving Repr, DecidableEq

/-- Model of jwt.sign: attaches the signing key as the signature. -/
def jwtSign (p : Payload) (key : JStr) : SignedToken :=
  ⟨p, key⟩

/-- Model of jwt.verify: returns the embedded payload iff the token was
signed with the same key, otherwise fails. -/
def jwtVerify (t : SignedToken) (key : JStr) : Except ErrKind Payload :=
  if t.sig = key then .ok t.payload else .error .InvalidSignature

/-- createToken (src/helpers/tokens.js): builds a payload holding only the
email and role of the user — never the numeric id — and signs it. -/
def createToken (user : Payload) (secretKey : JStr) : SignedToken :=
  jwtSign { email := user.email, role := user.role, id := none } secretKey

/-- Request data read by the auth middleware: the Authorization header,
the database-id header, and the email route parameter. paramsDatabaseId
models a database id appearing as a route parameter, which the doc
comment of ensureDatabaseUser mentions but its code never reads. -/
structure Request where
  authorization : Option JStr
  databaseIdHeader : Option JStr
  paramsEmail : Option JStr
  paramsDatabaseId : Option JStr
deriving Repr, DecidableEq

/-- Request-scoped locals (res.locals): the resolved user, when any. -/
structure Locals where
  user : Option Payload
deriving Repr, DecidableEq

/-- Truthiness of a possibly-absent JS string: undefined and "" are falsy. -/
def jsTruthy : Option JStr → Bool
  | some s => s != []
  | none => false

/-- Truthiness of a possibly-absent JS number: undefined and 0 are falsy. -/
def jsTruthyNat : Option Nat → Bool
  | some n => n != 0
  | none => false

/-- Whitespace test used by the JS trim. -/
def isWs (c : Char) : Bool :=
  c == ' ' || c == '\t' || c == '\n' || c == '\r'

/-- The JS String.prototype.trim: drops whitespace from both ends. -/
def jsTrim (s : JStr) : JStr :=
  ((s.dropWhile isWs).reverse.dropWhile isWs).reverse

/-- The header rewrite in authenticateJWT, authHeader.replace of the
anchored pattern accepting exactly the two spellings Bearer and bearer of
the scheme word followed by one space: when one of the two is present the
seven scheme characters are dropped, otherwise the string is unchanged. -/
def stripBearer (s : JStr) : JStr :=
  if (js "Bearer ").isPrefixOf s then s.drop 7
  else if (js "bearer ").isPrefixOf s then s.drop 7
  else s

/-- authenticateJWT (middleware/auth.js). vf stands for jwt.verify with the
process-wide secret key applied: some payload on a valid token string,
none when verification throws. Invalid tokens are ignored and the
middleware always calls next(), returning the possibly enriched locals. -/
def authenticateJWT (vf : JStr → Option Payload) (req : Request)
    (locals : Locals) : Locals :=
  match req.authorization with
  | none => locals
  | some authHeader =>
      let token := jsTrim (stripBearer authHeader)
      match vf token with
      | some payload => { locals with user := some payload }
      | none => locals

/-- ensureSuperAdmin (middleware/auth.js): next() iff the resolved role is
the string super_admin. -/
def ensureSuperAdmin (req : Request) (locals : Locals) :
    Except ErrKind Locals :=
  if locals.user.bind Payload.role == some (js "super_admin") then .ok locals
  else .error (.Unauthorized none)

/-- ensureLoggedIn (middleware/auth.js): next() iff res.locals.user?.email
is truthy. -/
def ensureLoggedIn (req : Request) (locals : Locals) :
    Except ErrKind Locals :=
  if jsTruthy (locals.user.bind Payload.email) then .ok locals
  else .error (.Unauthorized none)

/-- ensureCorrectUser (middleware/auth.js): next() iff
res.locals.user?.email is truthy and strictly equals req.params.email. -/
def ensureCorrectUser (req : Request) (locals : Locals) :
    Except ErrKind Locals :=
  let currentUser := locals.user.bind Payload.email
  if jsTruthy currentUser && (currentUser == req.paramsEmail) then .ok locals
  else .error (.Unauthorized none)

/-- ensureSuperAdminOrCorrectUser (middleware/auth.js): next() iff the role
is super_admin or the email check of ensureCorrectUser holds. -/
def ensureSuperAdminOrCorrectUser (req : Request) (locals : Locals) :
    Except ErrKind Locals :=
  let currentUser := locals.user.bind Payload.email
  let isSuperAdmin := locals.user.bind Payload.role == some (js "super_admin")
  if isSuperAdmin || (jsTruthy currentUser && (currentUser == req.paramsEmail)) then
    .ok locals
  else .error (.Unauthorized none)

/-- State of the user_databases relation as seen by the membership lookup:
either its (user_id, database_id) rows, or unreachable storage, in which
case db.query throws. Database ids are modelled by the header strings the
rows are compared against. -/
inductive DbState where
  | ok : List (Nat × JStr) → DbState
  | down : JStr → DbState
deriving Repr, DecidableEq

/-- Database.isUserLinkedToDatabase (src/models/database.js): selects the
rows with the given user_id and database_id and returns whether any row
matched; a data-access failure is rethrown. -/
def isUserLinkedToDatabase (st : DbState) (userId : Nat)
    (databaseId : JStr) : Except ErrKind Bool :=
  match st with
  | .down msg => .error (.DataAccess msg)
  | .ok rows =>
      .ok (decide (0 < (rows.filter
        (fun r => r.1 == userId && r.2 == databaseId)).length))

/-- ensureDatabaseUser (middleware/auth.js): reads the user id from
res.locals.user?.id and the database id from the database-id request
header only; a falsy user id or database id raises UnauthorizedError, a
member calls next(), a non-member raises UnauthorizedError, and every
thrown error — including a rethrown data-access failure from the lookup —
is funnelled to next(err). -/
def ensureDatabaseUser (st : DbState) (req : Request) (locals : Locals) :
    Except ErrKind Locals :=
  let userId := locals.user.bind Payload.id
  let databaseId := req.databaseIdHeader
  if !(jsTruthyNat userId) then
    .error (.Unauthorized (some (js "User authentication required.")))
  else if !(jsTruthy databaseId) then
    .error (.Unauthorized (some (js "Database connection required.")))
  else
    match isUserLinkedToDatabase st (userId.getD 0) (databaseId.getD []) with
    | .error e => .error e
    | .ok true => .ok locals
    | .ok false =>
        .error (.Unauthorized (some (js "User not authorized to access this database.")))

/-- Sample verifier: accepts exactly the token string tok and resolves it
to a fixed user payload; every other string fails verification. -/
def vfTok : JStr → Option Payload :=
  fun s =>
    if s = js "tok" then some ⟨some (js "a@b"), some (js "user"), none⟩
    else none

/-- C3: round-trip — verifying a token issued by createToken returns exactly
the input claims whenever those claims contain only email and role (no id
field). -/
theorem verify_createToken_roundtrip (c : Payload) (key : JStr)
    (h : c.id = none) :
    jwtVerify (createToken c key) key = .ok c := by
  obtain ⟨e, r, i⟩ := c
  simp only at h
  subst h
  simp [jwtVerify, createToken, jwtSign]

/-- Witness for C3 at a concrete claims object. -/
theorem verify_createToken_roundtrip_witness :
    jwtVerify (createToken ⟨some (js "a@b.c"), some (js "user"), none⟩ (js "k"))
      (js "k") = .ok ⟨some (js "a@b.c"), some (js "user"), none⟩ :=
  verify_createToken_roundtrip _ _ rfl

/-- C2: a payload recovered from a createToken-issued credential never
carries the numeric id, so whenever such a payload is the resolved identity,
ensureDatabaseUser fails its user-id check with the Unauthorized kind, for
every request and storage state. -/
theorem token_identity_never_passes_ensureDatabaseUser (u p : Payload)
    (key : JStr) (st : DbState) (req : Request) (locals : Locals)
    (hv : jwtVerify (createToken u key) key = .ok p)
    (hl : locals.user = some p) :
    ensureDatabaseUser st req locals =
      .error (.Unauthorized (some (js "User authentication required."))) := by
  have hp : p.id = none := by
    simp [jwtVerify, createToken, jwtSign] at hv
    rw [← hv]
  simp [ensureDatabaseUser, hl, hp, jsTruthyNat]

/-- Witness for C2 at a concrete token-derived identity. -/
theorem token_identity_never_passes_ensureDatabaseUser_witness :
    ensureDatabaseUser (.ok []) ⟨none, some (js "9"), none, none⟩
      ⟨some ⟨some (js "a@b"), some (js "user"), none⟩⟩ =
      .error (.Unauthorized (some (js "User authentication required."))) :=
  token_identity_never_passes_ensureDatabaseUser
    ⟨some (js "a@b"), some (js "user"), some 5⟩
    ⟨some (js "a@b"), some (js "user"), none⟩ (js "k") _ _ _ rfl rfl

/-- C4: authenticateJWT never fails the request: with no Authorization
header it proceeds with locals unchanged, with a header whose token fails
verification it proceeds exactly as in the no-header case, and whenever it
attaches a user that user comes from a successful verification of the
stripped header token. -/
theorem authenticateJWT_never_fails (vf : JStr → Option Payload)
    (req : Request) (locals : Locals) :
    (req.authorization = none → authenticateJWT vf req locals = locals)
    ∧ (∀ h, req.authorization = some h → vf (jsTrim (stripBearer h)) = none →
        authenticateJWT vf req locals =
          authenticateJWT vf { req with authorization := none } locals)
    ∧ (∀ p, (authenticateJWT vf req locals).user = some p →
        locals.user = some p ∨
          ∃ h, req.authorization = some h ∧
            vf (jsTrim (stripBearer h)) = some p) := by
  refine ⟨fun h => by simp [authenticateJWT, h], ?_, ?_⟩
  · intro h hh hv
    simp [authenticateJWT, hh, hv]
  · intro p hp
    cases hha : req.authorization with
    | none =>
        left
        simpa [authenticateJWT, hha] using hp
    | some h =>
        cases hv : vf (jsTrim (stripBearer h)) with
        | none =>
            left
            simpa [authenticateJWT, hha, hv] using hp
        | some q =>
            right
            simp only [authenticateJWT, hha, hv] at hp
            exact ⟨h, rfl, by rw [hv]; simpa using hp⟩

/-- Witness for C4: a header with an unverifiable token yields the same
locals as no header. -/
theorem authenticateJWT_never_fails_witness :
    authenticateJWT (fun _ => none) ⟨some (js "Bearer x"), none, none, none⟩
      ⟨none⟩ = ⟨none⟩ := by
  have h := (authenticateJWT_never_fails (fun _ => none)
    ⟨some (js "Bearer x"), none, none, none⟩ ⟨none⟩).2.1 (js "Bearer x") rfl rfl
  simpa [authenticateJWT] using h

/-- C10: when the Authorization header value starts with neither spelling of
the scheme word, the whole trimmed value is handed to verification, so a
bare validly signed token still attaches an identity. -/
theorem bare_token_attaches_identity (vf : JStr → Option Payload)
    (req : Request) (locals : Locals) (h : JStr) (p : Payload)
    (hh : req.authorization = some h)
    (h1 : (js "Bearer ").isPrefixOf h = false)
    (h2 : (js "bearer ").isPrefixOf h = false)
    (hv : vf (jsTrim h) = some p) :
    (authenticateJWT vf req locals).user = some p := by
  simp [authenticateJWT, hh, stripBearer, h1, h2, hv]

/-- Witness for C10: a bare token with no scheme word attaches the resolved
identity. -/
theorem bare_token_attaches_identity_witness :
    (authenticateJWT vfTok ⟨some (js "tok"), none, none, none⟩ ⟨none⟩).user =
      some ⟨some (js "a@b"), some (js "user"), none⟩ :=
  bare_token_attaches_identity vfTok _ _ (js "tok") _ rfl rfl rfl rfl

/-- C5: ensureSuperAdminOrCorrectUser passes for a non-privileged identity
iff ensureCorrectUser passes on the same context, always passes when the
resolved role is super_admin, and every failure is of the Unauthorized
kind. -/
theorem superAdminOrCorrectUser_spec (req : Request) (locals : Locals) :
    (locals.user.bind Payload.role ≠ some (js "super_admin") →
      (ensureSuperAdminOrCorrectUser req locals = .ok locals ↔
        ensureCorrectUser req locals = .ok locals))
    ∧ (locals.user.bind Payload.role = some (js "super_admin") →
        ensureSuperAdminOrCorrectUser req locals = .ok locals)
    ∧ (∀ e, ensureSuperAdminOrCorrectUser req locals = .error e →
        e = .Unauthorized none) := by
  unfold ensureSuperAdminOrCorrectUser ensureCorrectUser
  by_cases hsa : locals.user.bind Payload.role = some (js "super_admin") <;>
    by_cases hcu : (jsTruthy (locals.user.bind Payload.email) &&
      (locals.user.bind Payload.email == req.paramsEmail)) = true <;>
    simp [hsa, hcu]

/-- Witness for C5: a non-privileged matching subject passes iff
ensureCorrectUser passes, and a super_admin passes with no subject at
all. -/
theorem superAdminOrCorrectUser_spec_witness :
    (ensureSuperAdminOrCorrectUser ⟨none, none, some (js "a@b"), none⟩
        ⟨some ⟨some (js "a@b"), some (js "user"), none⟩⟩ =
        .ok ⟨some ⟨some (js "a@b"), some (js "user"), none⟩⟩ ↔
      ensureCorrectUser ⟨none, none, some (js "a@b"), none⟩
        ⟨some ⟨some (js "a@b"), some (js "user"), none⟩⟩ =
        .ok ⟨some ⟨some (js "a@b"), some (js "user"), none⟩⟩)
    ∧ ensureSuperAdminOrCorrectUser ⟨none, none, none, none⟩
        ⟨some ⟨none, some (js "super_admin"), none⟩⟩ =
        .ok ⟨some ⟨none, some (js "super_admin"), none⟩⟩ :=
  ⟨(superAdminOrCorrectUser_spec _ _).1 (by decide),
   (superAdminOrCorrectUser_spec _ _).2.1 rfl⟩

/-- C6: with an identity present, ensureCorrectUser passes iff the identity
email is a nonempty string equal, character for character, to the email
route parameter; an absent or empty email fails, a mismatch (including a
mere case difference) fails, and every failure is of the Unauthorized
kind. -/
theorem correctUser_spec (req : Request) (locals : Locals) (u : Payload)
    (hu : locals.user = some u) :
    (ensureCorrectUser req locals = .ok locals ↔
      ∃ s, u.email = some s ∧ s ≠ [] ∧ req.paramsEmail = some s)
    ∧ (∀ e, ensureCorrectUser req locals = .error e →
        e = .Unauthorized none) := by
  constructor
  · cases he : u.email with
    | none => simp [ensureCorrectUser, hu, he, jsTruthy]
    | some s =>
        cases hp : req.paramsEmail with
        | none => simp [ensureCorrectUser, hu, he, hp, jsTruthy]
        | some t =>
            by_cases hst : s = t
            · subst hst
              by_cases hs : s = []
              · subst hs
                simp [ensureCorrectUser, hu, he, hp, jsTruthy]
              · simp [ensureCorrectUser, hu, he, hp, jsTruthy, hs]
            · simp [ensureCorrectUser, hu, he, hp, jsTruthy, hst]
              exact fun _ h2 => hst h2.symm
  · intro e he
    by_cases hc : (jsTruthy (locals.user.bind Payload.email) &&
        (locals.user.bind Payload.email == req.paramsEmail)) = true
    · simp [ensureCorrectUser, hc] at he
    · simp [ensureCorrectUser, hc] at he
      exact he.symm

/-- Witness for C6: a matching nonempty email passes. -/
theorem correctUser_spec_witness :
    ensureCorrectUser ⟨none, none, some (js "a@b"), none⟩
      ⟨some ⟨some (js "a@b"), some (js "user"), none⟩⟩ =
      .ok ⟨some ⟨some (js "a@b"), some (js "user"), none⟩⟩ :=
  (correctUser_spec _ _ _ rfl).1.mpr ⟨js "a@b", rfl, by decide, rfl⟩

/-- C7: with storage down the membership lookup fails with the DataAccess
kind and ensureDatabaseUser propagates exactly that error, which differs
from every Unauthorized error; with storage reachable and no matching row
the lookup returns false without error. -/
theorem membership_failure_propagates (msg : JStr) (uid : Nat) (dbid : JStr)
    (rows : List (Nat × JStr)) (req : Request) (locals : Locals) (u : Payload)
    (hu : locals.user = some u) (hid : u.id = some uid) (hne : uid ≠ 0)
    (hdb : req.databaseIdHeader = some dbid) (hde : dbid ≠ []) :
    isUserLinkedToDatabase (.down msg) uid dbid = .error (.DataAccess msg)
    ∧ ensureDatabaseUser (.down msg) req locals = .error (.DataAccess msg)
    ∧ (rows.filter (fun r => r.1 == uid && r.2 == dbid) = [] →
        isUserLinkedToDatabase (.ok rows) uid dbid = .ok false)
    ∧ (∀ s, ErrKind.DataAccess msg ≠ ErrKind.Unauthorized s) := by
  refine ⟨rfl, ?_, ?_, fun s h => ErrKind.noConfusion h⟩
  · simp [ensureDatabaseUser, hu, hid, hdb, jsTruthyNat, jsTruthy, hne, hde,
      isUserLinkedToDatabase]
  · intro hf
    simp [isUserLinkedToDatabase, hf]

/-- Witness for C7: with storage down the data-access failure reaches the
predicate caller unchanged. -/
theorem membership_failure_propagates_witness :
    ensureDatabaseUser (.down (js "db down")) ⟨none, some (js "9"), none, none⟩
      ⟨some ⟨some (js "a@b"), some (js "user"), some 5⟩⟩ =
      .error (.DataAccess (js "db down")) :=
  (membership_failure_propagates (js "db down") 5 (js "9") []
    ⟨none, some (js "9"), none, none⟩ _ _ rfl rfl (by decide) rfl
    (by decide)).2.1

/-- C8 fails on the code: the scheme word is not matched case-insensitively.
A verifier accepting exactly the token tok attaches an identity when the
header reads Bearer tok, but not when it reads BEARER tok, where the claim
demands the prefix also be stripped and the token verified. -/
theorem bearer_scheme_not_case_insensitive :
    (authenticateJWT vfTok ⟨some (js "Bearer tok"), none, none, none⟩
        ⟨none⟩).user = some ⟨some (js "a@b"), some (js "user"), none⟩
    ∧ (authenticateJWT vfTok ⟨some (js "BEARER tok"), none, none, none⟩
        ⟨none⟩).user = none :=
  ⟨rfl, rfl⟩

/-- C8 amended: only the two spellings Bearer and bearer of the scheme word
are stripped; for a header starting with either one the middleware drops
the seven scheme characters, trims the rest, hands it to verification, and
attaches the resulting identity exactly when verification succeeds. -/
theorem bearer_scheme_stripped (vf : JStr → Option Payload) (req : Request)
    (locals : Locals) (h : JStr)
    (hh : req.authorization = some h)
    (hb : (js "Bearer ").isPrefixOf h = true ∨
      (js "bearer ").isPrefixOf h = true) :
    authenticateJWT vf req locals =
      (match vf (jsTrim (h.drop 7)) with
       | some p => { locals with user := some p }
       | none => locals) := by
  have hs : stripBearer h = h.drop 7 := by
    by_cases h1 : (js "Bearer ").isPrefixOf h = true
    · simp [stripBearer, h1]
    · rcases hb with hb | hb
      · exact absurd hb h1
      · simp [stripBearer, h1, hb]
  cases hv : vf (jsTrim (h.drop 7)) with
  | none => simp [authenticateJWT, hh, hs, hv]
  | some p => simp [authenticateJWT, hh, hs, hv]

/-- Witness for the amended C8: a lower-case scheme word is stripped and the
token behind it resolves the identity. -/
theorem bearer_scheme_stripped_witness :
    authenticateJWT vfTok ⟨some (js "bearer tok"), none, none, none⟩ ⟨none⟩ =
      ⟨some ⟨some (js "a@b"), some (js "user"), none⟩⟩ := by
  have h := bearer_scheme_stripped vfTok
    ⟨some (js "bearer tok"), none, none, none⟩ ⟨none⟩ (js "bearer tok") rfl
    (Or.inr rfl)
  simpa using h

/-- C9 fails on the code: with unreachable storage, ensureDatabaseUser fails
with the DataAccess kind rather than the Unauthorized kind, so not every
predicate failure is of the Unauthorized kind. -/
theorem predicate_failure_not_always_unauthorized :
    ensureDatabaseUser (.down (js "storage unreachable"))
        ⟨none, some (js "3"), none, none⟩
        ⟨some ⟨some (js "x@y"), some (js "user"), some 7⟩⟩ =
      .error (.DataAccess (js "storage unreachable"))
    ∧ ∀ s, ErrKind.DataAccess (js "storage unreachable") ≠
        ErrKind.Unauthorized s :=
  ⟨rfl, fun s h => ErrKind.noConfusion h⟩

/-- C9 amended: every authorization predicate either passes returning the
request context unchanged or fails with no handler execution; the failure
kind is Unauthorized for ensureLoggedIn, ensureSuperAdmin,
ensureCorrectUser and ensureSuperAdminOrCorrectUser, and for
ensureDatabaseUser it is either Unauthorized or the DataAccess failure
propagated from the membership lookup when storage is down. -/
theorem predicates_preserve_context (st : DbState) (req : Request)
    (locals : Locals) :
    (ensureLoggedIn req locals = .ok locals ∨
      ensureLoggedIn req locals = .error (.Unauthorized none))
    ∧ (ensureSuperAdmin req locals = .ok locals ∨
      ensureSuperAdmin req locals = .error (.Unauthorized none))
    ∧ (ensureCorrectUser req locals = .ok locals ∨
      ensureCorrectUser req locals = .error (.Unauthorized none))
    ∧ (ensureSuperAdminOrCorrectUser req locals = .ok locals ∨
      ensureSuperAdminOrCorrectUser req locals = .error (.Unauthorized none))
    ∧ (ensureDatabaseUser st req locals = .ok locals ∨
      (∃ m, ensureDatabaseUser st req locals = .error (.Unauthorized m)) ∨
      (∃ m, st = .down m ∧
        ensureDatabaseUser st req locals = .error (.DataAccess m))) := by
  refine ⟨?_, ?_, ?_, ?_, ?_⟩
  · unfold ensureLoggedIn
    split
    · left; rfl
    · right; rfl
  · unfold ensureSuperAdmin
    split
    · left; rfl
    · right; rfl
  · unfold ensureCorrectUser
    by_cases hc : (jsTruthy (locals.user.bind Payload.email) &&
        (locals.user.bind Payload.email == req.paramsEmail)) = true
    · left; simp [hc]
    · right; simp [hc]
  · unfold ensureSuperAdminOrCorrectUser
    by_cases hc : ((locals.user.bind Payload.role == some (js "super_admin")) ||
        (jsTruthy (locals.user.bind Payload.email) &&
          (locals.user.bind Payload.email == req.paramsEmail))) = true
    · left; simp [hc]
    · right; simp [hc]
  · unfold ensureDatabaseUser
    by_cases h1 : (!(jsTruthyNat (locals.user.bind Payload.id))) = true
    · right; left
      exact ⟨some (js "User authentication required."), by simp [h1]⟩
    · by_cases h2 : (!(jsTruthy req.databaseIdHeader)) = true
      · right; left
        exact ⟨some (js "Database connection required."), by simp [h1, h2]⟩
      · cases st with
        | down m =>
            right; right
            exact ⟨m, rfl, by simp [h1, h2, isUserLinkedToDatabase]⟩
        | ok rows =>
            by_cases hm : (0 < (rows.filter
                (fun r => r.1 == ((locals.user.bind Payload.id).getD 0) &&
                  r.2 == (req.databaseIdHeader.getD []))).length)
            · left
              simp [h1, h2, isUserLinkedToDatabase, hm]
            · right; left
              exact ⟨some (js "User not authorized to access this database."),
                by simp [h1, h2, isUserLinkedToDatabase, hm]⟩

/-- C1 failing input: the database id is supplied only as a route parameter,
the resolved user carries the numeric id 5, and the membership row (5, 9)
exists, yet ensureDatabaseUser rejects the request — the code reads the
database id only from the database-id header, while its own doc comment
says headers or params. -/
theorem ensureDatabaseUser_ignores_route_param :
    ensureDatabaseUser (.ok [(5, js "9")]) ⟨none, none, none, some (js "9")⟩
        ⟨some ⟨some (js "a@b"), some (js "user"), some 5⟩⟩ =
      .error (.Unauthorized (some (js "Database connection required."))) :=
  rfl

end ErpAuth
